import Mathlib

/-!
Verification of `planning_center_backend` against its specification.

We shallowly embed the parts of the Python source that the claims are
about:

* `api_provider.py` — `ApiProvider.query_api`, the paginated
  fetch-and-decode loop (`query_api`, with HTTP fetching abstracted as an
  oracle `fetch : String → ApiSection α` and loop termination supplied by
  explicit fuel; `none` means the loop did not finish within the fuel).
* `planning_center.py` — the CSRF token cache (`_get_cached_csrf_token` /
  `get_csrf_token`), token scraping (`_get_csrf_token`), and the
  `get_json` / `post` / `delete` request helpers with their
  retry-once-on-stale-token policy.
* `groups.py` — `GroupIdentifier` (URL construction and parsing) and
  `GroupObject.refresh` / `GroupObject.attributes` (lazy loading).

Machine-level effects (actual HTTP, wall-clock time, HTML parsing) are
represented by explicit oracles and an explicit `Nat` clock, so every
definition is executable.
-/

set_option maxHeartbeats 1000000

namespace PlanningCenter

/-! ## api_provider.py : `ApiProvider.query_api`

A decoded response page (`msgspec` schema `ApiBase`): `data` is the
decoded payload (a list of records), `meta` is modelled by its key set
(only membership of `'total_count'` is ever inspected), and `links` is
the optional links dict, modelled as an association list. -/

structure ApiSection (α : Type) where
  data : List α
  meta : List String
  links : Option (List (String × String))
deriving Repr, DecidableEq

/-- `section.links is not None and 'next' in section.links` followed by
`section.links['next']`: the next-page URL, if any. -/
def sectionNext {α : Type} (s : ApiSection α) : Option String :=
  match s.links with
  | some l => l.lookup "next"
  | none => none

/-- `limit is not None and len(results) >= limit` — the record-limit break
condition of `query_api` (`limit` is a Python `int`, hence `Int`). -/
def limitReached (limit : Option Int) (n : Nat) : Bool :=
  match limit with
  | some lim => decide (lim ≤ (n : Int))
  | none => false

/-- The `while url:` loop of `ApiProvider.query_api`.  The current `url`
is `Option String` (`None` or a `str`); the Python loop guard is truthy,
so it also exits on the empty string.  `results` is the accumulator,
`fuel` bounds the number of iterations (`none` = the loop did not
terminate within `fuel` iterations). -/
def queryLoop {α : Type} (fetch : String → ApiSection α) (limit : Option Int) :
    Nat → Option String → List α → Option (List α)
  | 0, _, _ => none
  | fuel + 1, url?, results =>
    match url? with
    | none => some results
    | some url =>
      if url.isEmpty then some results
      else
        let s := fetch url
        if "total_count" ∉ s.meta then
          -- result is a singleton, return now
          some s.data
        else
          -- result is a list and needs next processing
          let results' := results ++ s.data
          let next? := sectionNext s
          if limitReached limit results'.length then some results'
          else queryLoop fetch limit fuel next? results'

/-- `ApiProvider.query_api`: starts the loop at the given URL with
`results = []`. -/
def query_api {α : Type} (fetch : String → ApiSection α) (limit : Option Int)
    (fuel : Nat) (url : String) : Option (List α) :=
  queryLoop fetch limit fuel (some url) []

/-- The chain of pages visited when no record limit is in force: follow
`links['next']` from the given URL, stopping on a falsy URL or a
single-object (no `'total_count'`) response. -/
def fetchPages {α : Type} (fetch : String → ApiSection α) :
    Nat → Option String → List (ApiSection α)
  | 0, _ => []
  | fuel + 1, url? =>
    match url? with
    | none => []
    | some url =>
      if url.isEmpty then []
      else
        let s := fetch url
        if "total_count" ∉ s.meta then [s]
        else s :: fetchPages fetch fuel (sectionNext s)

/-- The chain of pages visited under a record limit: as `fetchPages`, but
also stopping once the accumulated record count (`acc` records so far)
reaches the limit. -/
def fetchPagesLim {α : Type} (fetch : String → ApiSection α) (limit : Option Int) :
    Nat → Option String → Nat → List (ApiSection α)
  | 0, _, _ => []
  | fuel + 1, url?, acc =>
    match url? with
    | none => []
    | some url =>
      if url.isEmpty then []
      else
        let s := fetch url
        if "total_count" ∉ s.meta then [s]
        else
          let acc' := acc + s.data.length
          if limitReached limit acc' then [s]
          else s :: fetchPagesLim fetch limit fuel (sectionNext s) acc'

/-- If the loop terminates within its fuel and every page it would visit
is multi-record, the result is the accumulator followed by the
concatenated page data, where the pages visited are `fetchPagesLim`. -/
theorem queryLoop_eq_flatMap {α : Type} (fetch : String → ApiSection α)
    (limit : Option Int) :
    ∀ (fuel : Nat) (url? : Option String) (acc r : List α),
      queryLoop fetch limit fuel url? acc = some r →
      (∀ s ∈ fetchPagesLim fetch limit fuel url? acc.length, "total_count" ∈ s.meta) →
      r = acc ++ (fetchPagesLim fetch limit fuel url? acc.length).flatMap ApiSection.data
  | 0, _, _, _, h, _ => by simp [queryLoop] at h
  | fuel + 1, none, acc, r, h, _ => by
    simp [queryLoop] at h
    simp [fetchPagesLim, ← h]
  | fuel + 1, some url, acc, r, h, hmulti => by
    by_cases hempty : url.isEmpty
    · simp [queryLoop, hempty] at h
      simp [fetchPagesLim, hempty, ← h]
    · by_cases hmem : "total_count" ∈ (fetch url).meta
      · by_cases hl : limitReached limit (acc.length + (fetch url).data.length)
        · simp [queryLoop, hempty, hmem, hl] at h
          simp [fetchPagesLim, hempty, hmem, hl, ← h]
        · simp [queryLoop, hempty, hmem, hl] at h
          have hrec := queryLoop_eq_flatMap fetch limit fuel (sectionNext (fetch url))
            (acc ++ (fetch url).data) r h
          simp only [List.length_append] at hrec
          have := hrec (by
            intro s hs
            apply hmulti
            simp [fetchPagesLim, hempty, hmem, hl, hs])
          simp [fetchPagesLim, hempty, hmem, hl, this]
      · exact absurd (hmulti (fetch url) (by simp [fetchPagesLim, hempty, hmem])) hmem

/-- With no record limit, the limited chain is the plain
link-following chain. -/
theorem fetchPagesLim_none {α : Type} (fetch : String → ApiSection α) :
    ∀ (fuel : Nat) (url? : Option String) (acc : Nat),
      fetchPagesLim fetch none fuel url? acc = fetchPages fetch fuel url?
  | 0, _, _ => rfl
  | fuel + 1, none, _ => rfl
  | fuel + 1, some url, acc => by
    by_cases hempty : url.isEmpty
    · simp [fetchPagesLim, fetchPages, hempty]
    · by_cases hm : "total_count" ∈ (fetch url).meta
      · simp [fetchPagesLim, fetchPages, hempty, hm, limitReached,
          fetchPagesLim_none fetch fuel (sectionNext (fetch url))]
      · simp [fetchPagesLim, fetchPages, hempty, hm]

/-! Concrete fetch oracles used to witness the pagination theorems. -/

/-- A two-page multi-record result: page `"u1"` links to page `"u2"`,
which has no `next` link. -/
def exampleFetch : String → ApiSection Nat := fun url =>
  if url = "u1" then ⟨[1, 2], ["total_count"], some [("next", "u2")]⟩
  else if url = "u2" then ⟨[3], ["total_count"], none⟩
  else ⟨[], [], none⟩

/-- A three-page multi-record result with two records on each of the
first two pages. -/
def exampleFetchLim : String → ApiSection Nat := fun url =>
  if url = "u1" then ⟨[1, 2], ["total_count"], some [("next", "u2")]⟩
  else if url = "u2" then ⟨[3, 4], ["total_count"], some [("next", "u3")]⟩
  else ⟨[5], ["total_count"], none⟩

/-- A fetch oracle whose page `"u2"` is a single-object response (its
`meta` has no `'total_count'` key). -/
def exampleFetchScalar : String → ApiSection Nat := fun url =>
  if url = "u1" then ⟨[1, 2], ["total_count"], some [("next", "u2")]⟩
  else ⟨[7], ["kind"], none⟩

/-- C1: for a multi-record query with no record limit (every visited page
has `'total_count'` in its meta), `query_api` returns the concatenation,
in fetch order, of the visited pages' data lists, where the visited pages
(`fetchPages`) are obtained by repeatedly following `links['next']` and
stopping when a response has no next link. -/
theorem query_api_concat_pages {α : Type} (fetch : String → ApiSection α)
    (fuel : Nat) (url : String) (r : List α)
    (hterm : query_api fetch none fuel url = some r)
    (hmulti : ∀ s ∈ fetchPages fetch fuel (some url), "total_count" ∈ s.meta) :
    r = (fetchPages fetch fuel (some url)).flatMap ApiSection.data := by
  have h := queryLoop_eq_flatMap fetch none fuel (some url) [] r hterm
  simp only [List.length_nil, fetchPagesLim_none, List.nil_append] at h
  exact h hmulti

/-- Witness for C1 on the concrete two-page oracle. -/
theorem query_api_concat_pages_witness :
    ([1, 2, 3] : List Nat) = (fetchPages exampleFetch 3 (some "u1")).flatMap ApiSection.data :=
  query_api_concat_pages exampleFetch 3 "u1" [1, 2, 3] (by decide) (by decide)

/-- C2: if a fetched page's meta has no `'total_count'` key, the traversal
stops at that page and returns that page's data — both mid-traversal
(any accumulator) and from the top-level `query_api` entry point. -/
theorem query_api_scalar_stops {α : Type} (fetch : String → ApiSection α)
    (limit : Option Int) (fuel : Nat) (url : String) (acc : List α)
    (hne : url.isEmpty = false)
    (hscalar : "total_count" ∉ (fetch url).meta) :
    queryLoop fetch limit (fuel + 1) (some url) acc = some (fetch url).data ∧
    query_api fetch limit (fuel + 1) url = some (fetch url).data := by
  constructor <;> simp [query_api, queryLoop, hne, hscalar]

/-- Witness for C2: page `"u2"` of `exampleFetchScalar` is scalar. -/
theorem query_api_scalar_stops_witness :
    queryLoop exampleFetchScalar (some 1) (0 + 1) (some "u2") [9] =
      some (exampleFetchScalar "u2").data ∧
    query_api exampleFetchScalar (some 1) (0 + 1) "u2" =
      some (exampleFetchScalar "u2").data :=
  query_api_scalar_stops exampleFetchScalar (some 1) 0 "u2" [9] (by decide) (by decide)

/-- C3: with a non-`None` limit, as soon as the accumulated record count
reaches or exceeds the limit the loop breaks and returns, even though the
current page still has a next link — the conclusion does not depend on
any further page. -/
theorem query_api_limit_stops {α : Type} (fetch : String → ApiSection α)
    (lim : Int) (fuel : Nat) (url : String) (acc : List α)
    (hne : url.isEmpty = false)
    (hmulti : "total_count" ∈ (fetch url).meta)
    (hlim : lim ≤ ((acc ++ (fetch url).data).length : Int))
    (hnext : sectionNext (fetch url) ≠ none) :
    queryLoop fetch (some lim) (fuel + 1) (some url) acc =
      some (acc ++ (fetch url).data) := by
  simp [queryLoop, hne, hmulti, limitReached, hlim]
  intro hcontra
  simp only [List.length_append, Nat.cast_add] at hlim
  omega

/-- Witness for C3: at page `"u2"` of `exampleFetchLim` with limit 3 the
accumulated count reaches 4 while a next link to `"u3"` remains. -/
theorem query_api_limit_stops_witness :
    queryLoop exampleFetchLim (some 3) (7 + 1) (some "u2") [1, 2] =
      some ([1, 2] ++ (exampleFetchLim "u2").data) :=
  query_api_limit_stops exampleFetchLim 3 7 "u2" [1, 2]
    (by decide) (by decide) (by decide) (by decide)

/-- C8: the record limit is a stopping condition, not a truncation: the
returned list is the full concatenation of the visited pages' data
(`fetchPagesLim`), and on a concrete run with limit 3 the result has
length 4. -/
theorem query_api_limit_no_truncation :
    (∀ (α : Type) (fetch : String → ApiSection α) (lim : Int) (fuel : Nat)
        (url : String) (r : List α),
      query_api fetch (some lim) fuel url = some r →
      (∀ s ∈ fetchPagesLim fetch (some lim) fuel (some url) 0, "total_count" ∈ s.meta) →
      r = (fetchPagesLim fetch (some lim) fuel (some url) 0).flatMap ApiSection.data) ∧
    query_api exampleFetchLim (some 3) 5 "u1" = some [1, 2, 3, 4] ∧
    3 < ([1, 2, 3, 4] : List Nat).length := by
  refine ⟨?_, by decide, by decide⟩
  intro α fetch lim fuel url r h hm
  have hq := queryLoop_eq_flatMap fetch (some lim) fuel (some url) [] r h
  simp only [List.length_nil, List.nil_append] at hq
  exact hq hm

/-- Witness for C8's universally quantified part on the concrete
three-page oracle with limit 3. -/
theorem query_api_limit_no_truncation_witness :
    ([1, 2, 3, 4] : List Nat) =
      (fetchPagesLim exampleFetchLim (some 3) 5 (some "u1") 0).flatMap ApiSection.data :=
  query_api_limit_no_truncation.1 Nat exampleFetchLim 3 5 "u1" [1, 2, 3, 4]
    (by decide) (by decide)

/-! ## planning_center.py : session helpers, CSRF cache, retry policy

HTTP responses carry the fields the code inspects: `ok`, `status_code`
and the body `text`.  Exceptions become an explicit error type:
`requestError` models `RequestError` (which carries the failing
response); `attributeError` models the `AttributeError` raised when
`soup.find` returns `None`; `keyError` models a missing dict key. -/

structure Response where
  ok : Bool
  status_code : Nat
  text : String
deriving Repr, DecidableEq

inductive PcError where
  | requestError (message : String) (response : Response)
  | attributeError
  | keyError
deriving Repr, DecidableEq

/-- A parsed HTML element, modelled by its attribute dict. -/
structure HtmlElement where
  attrs : List (String × String)
deriving Repr, DecidableEq

/-- `BeautifulSoup(...).find(attrs={'name': v})`: the first element in
document order whose `name` attribute equals `v`. -/
def soupFind (doc : List HtmlElement) (v : String) : Option HtmlElement :=
  doc.find? (fun e => e.attrs.lookup "name" == some v)

/-- `_get_csrf_token(session, url)`.  `pageGet` is the oracle for
`session.get(url, headers=dict(accept='text/html'))` and `parseHtml`
for `BeautifulSoup(r.text, 'html.parser')`. -/
def _get_csrf_token (pageGet : String → Response)
    (parseHtml : String → List HtmlElement) (url : String) :
    Except PcError String :=
  let r := pageGet url
  if !r.ok then
    .error (.requestError ("Could not fetch page " ++ url ++ " for csrf_token") r)
  else
    match soupFind (parseHtml r.text) "csrf-token" with
    | none => .error .attributeError
    | some e =>
      match e.attrs.lookup "content" with
      | some tok => .ok tok
      | none => .error .keyError

/-- `CSRF_CACHE_TIME = 60  # sec` -/
def CSRF_CACHE_TIME : Nat := 60

/-- One entry of the `TTLCache`.  The cache key is `(session, url)`; the
session is the single fixed session of the backend, so the key reduces
to the URL.  `stored` is the timer value at insertion. -/
structure CacheEntry where
  url : String
  token : String
  stored : Nat
deriving Repr, DecidableEq

abbrev CsrfCache : Type := List CacheEntry

/-- `TTLCache` lookup at time `now`: an entry is live while
`now < stored + ttl`; an expired or absent key is a miss. -/
def cacheLookup (c : CsrfCache) (now : Nat) (url : String) : Option String :=
  match List.find? (fun e => e.url == url) c with
  | some e => if now < e.stored + CSRF_CACHE_TIME then some e.token else none
  | none => none

/-- `cache.pop(key, None)`: remove the entry for `url`, if present. -/
def cachePop (c : CsrfCache) (url : String) : CsrfCache :=
  List.filter (fun e => !(e.url == url)) c

/-- `cache[key] = value` at time `now` (overwrites any previous entry). -/
def cacheInsert (c : CsrfCache) (url token : String) (now : Nat) : CsrfCache :=
  ⟨url, token, now⟩ :: cachePop c url

/-- `_get_cached_csrf_token` — the `@cached(cache=TTLCache(...))`
wrapper around `_get_csrf_token`: on a live cache hit return the cached
token; otherwise fetch and store.  The returned `Bool` records whether
an HTTP fetch of the token page happened. -/
def _get_cached_csrf_token (pageGet : String → Response)
    (parseHtml : String → List HtmlElement) (c : CsrfCache) (now : Nat)
    (url : String) : Except PcError (String × CsrfCache × Bool) :=
  match cacheLookup c now url with
  | some tok => .ok (tok, c, false)
  | none =>
    match _get_csrf_token pageGet parseHtml url with
    | .error e => .error e
    | .ok tok => .ok (tok, cacheInsert c url tok now, true)

/-- `PlanningCenterBackend.get_csrf_token`. -/
def get_csrf_token (pageGet : String → Response)
    (parseHtml : String → List HtmlElement) (c : CsrfCache) (now : Nat)
    (url : String) (no_cache force_refresh : Bool) :
    Except PcError (String × CsrfCache × Bool) :=
  -- remove key from cache if present
  let c := if force_refresh then cachePop c url else c
  if no_cache then
    match _get_csrf_token pageGet parseHtml url with
    | .error e => .error e
    | .ok tok => .ok (tok, c, true)
  else
    _get_cached_csrf_token pageGet parseHtml c now url

/-- Popping a key makes the next lookup of that key a miss. -/
theorem cacheLookup_cachePop (c : CsrfCache) (now : Nat) (url : String) :
    cacheLookup (cachePop c url) now url = none := by
  have h : List.find? (fun e => e.url == url) (cachePop c url) = none := by
    rw [List.find?_eq_none]
    intro e he
    have := List.of_mem_filter he
    simpa using this
  simp [cacheLookup, h]

/-- C5: the CSRF token cache behaviour of `get_csrf_token`, given that
scraping the page yields token `tok`:
(1) after a first call that fetched and stored (cache `c₁`), a second
call for the same URL within the TTL returns the cached token with no
fetch and an unchanged cache;
(2) `force_refresh=True` evicts the entry for that URL before fetching,
so the call fetches and stores a fresh entry;
(3) `no_cache=True` bypasses the cache entirely: it fetches and leaves
the cache unchanged. -/
theorem get_csrf_token_cache_spec (pageGet : String → Response)
    (parseHtml : String → List HtmlElement) (c c₁ : CsrfCache)
    (t₁ t₂ : Nat) (url tok : String)
    (hfetch : _get_csrf_token pageGet parseHtml url = .ok tok) :
    (get_csrf_token pageGet parseHtml c t₁ url false false = .ok (tok, c₁, true) →
      t₂ < t₁ + CSRF_CACHE_TIME →
      get_csrf_token pageGet parseHtml c₁ t₂ url false false = .ok (tok, c₁, false)) ∧
    (get_csrf_token pageGet parseHtml c t₁ url false true =
      .ok (tok, cacheInsert (cachePop c url) url tok t₁, true)) ∧
    (get_csrf_token pageGet parseHtml c t₁ url true false = .ok (tok, c, true)) := by
  refine ⟨?_, ?_, ?_⟩
  · intro h1 ht
    cases hc : cacheLookup c t₁ url with
    | some tok₀ =>
      exfalso
      simp [get_csrf_token, _get_cached_csrf_token, hc] at h1
    | none =>
      simp only [get_csrf_token, _get_cached_csrf_token, hc, hfetch, if_false,
        Bool.false_eq_true, ite_false] at h1
      have hcases := h1
      simp only [Except.ok.injEq, Prod.mk.injEq] at hcases
      have hc₁ : c₁ = cacheInsert c url tok t₁ := hcases.2.1.symm
      subst hc₁
      simp [get_csrf_token, _get_cached_csrf_token, cacheLookup, cacheInsert,
        List.find?, ht]
  · simp [get_csrf_token, _get_cached_csrf_token, cacheLookup_cachePop, hfetch]
  · simp [get_csrf_token, hfetch]

/-! Concrete oracles used to witness the CSRF theorems. -/

/-- A page fetch that always succeeds. -/
def examplePageGet : String → Response := fun _ => ⟨true, 200, "page"⟩

/-- A page fetch that always fails with a 500. -/
def exampleBadPageGet : String → Response := fun _ => ⟨false, 500, ""⟩

/-- An HTML document containing one meta tag with `name='csrf-token'`
and `content='tok123'`. -/
def exampleParseHtml : String → List HtmlElement := fun _ =>
  [⟨[("name", "csrf-token"), ("content", "tok123")]⟩]

/-- Witness for C5: a fresh fetch stores the token at time 0, and the
cached token is served without a fetch at time 59 (< TTL 60). -/
theorem get_csrf_token_cache_spec_witness :
    get_csrf_token examplePageGet exampleParseHtml
        (cacheInsert [] "u" "tok123" 0) 59 "u" false false =
      .ok ("tok123", cacheInsert [] "u" "tok123" 0, false) :=
  (get_csrf_token_cache_spec examplePageGet exampleParseHtml []
    (cacheInsert [] "u" "tok123" 0) 0 59 "u" "tok123" (by rfl)).1
    (by rfl) (by decide)

/-- C6: acquiring a CSRF token fetches the page as HTML; on a non-ok
response it raises `RequestError` (carrying that response) and yields no
token; on success it returns the `content` attribute of the element
whose `name` attribute is `csrf-token`. -/
theorem get_csrf_token_scrape (pageGet : String → Response)
    (parseHtml : String → List HtmlElement) (url : String) :
    ((pageGet url).ok = false →
      _get_csrf_token pageGet parseHtml url =
        .error (.requestError ("Could not fetch page " ++ url ++ " for csrf_token")
          (pageGet url))) ∧
    (∀ e tok, (pageGet url).ok = true →
      soupFind (parseHtml (pageGet url).text) "csrf-token" = some e →
      e.attrs.lookup "content" = some tok →
      _get_csrf_token pageGet parseHtml url = .ok tok) := by
  constructor
  · intro hok
    simp [_get_csrf_token, hok]
  · intro e tok hok hfind hcontent
    simp [_get_csrf_token, hok, hfind, hcontent]

/-- Witness for C6: the failing fetch raises, the succeeding one scrapes
the token. -/
theorem get_csrf_token_scrape_witness :
    _get_csrf_token exampleBadPageGet exampleParseHtml "u" =
      .error (.requestError ("Could not fetch page " ++ "u" ++ " for csrf_token")
        (exampleBadPageGet "u")) ∧
    _get_csrf_token examplePageGet exampleParseHtml "u" = .ok "tok123" :=
  ⟨(get_csrf_token_scrape exampleBadPageGet exampleParseHtml "u").1 (by rfl),
   (get_csrf_token_scrape examplePageGet exampleParseHtml "u").2
     ⟨[("name", "csrf-token"), ("content", "tok123")]⟩ "tok123"
     (by rfl) (by rfl) (by rfl)⟩

/-- `PlanningCenterBackend.get_json`: `r` is the response of
`session.get(url, headers=dict(accept='application/json'), params=params)`. -/
def get_json (r : Response) (url : String) : Except PcError String :=
  if !r.ok then .error (.requestError ("Could not get JSON content at " ++ url) r)
  else .ok r.text

/-- The final `if not r.ok: raise RequestError(...)` / `return r` check
shared by `post` and `delete` (`message` is the formatted f-string). -/
def checkResult (message : String) (r : Response) : Except PcError Response :=
  if !r.ok then .error (.requestError message r) else .ok r

/-- What a `post`/`delete` call did: its result, how many HTTP requests
were issued to the target URL (`attempts`), the `(no_cache,
force_refresh)` flags of each `get_csrf_token` call made, and the final
CSRF cache. -/
structure MutationOutcome where
  result : Except PcError Response
  attempts : Nat
  tokenCalls : List (Bool × Bool)
  cache : CsrfCache
deriving Repr

/-- `PlanningCenterBackend.post`.  `attemptResp i` is the response of the
`i`-th `session.post(url, ...)` call; token scraping goes through
`pageGet`/`parseHtml` and the CSRF cache `c` at time `now`. -/
def backendPost (pageGet : String → Response)
    (parseHtml : String → List HtmlElement) (attemptResp : Nat → Response)
    (c : CsrfCache) (now : Nat) (url : String)
    (csrf_frontend_url : Option String) (csrf_no_cache csrf_auto_retry : Bool) :
    MutationOutcome :=
  match csrf_frontend_url with
  | some furl =>
    match get_csrf_token pageGet parseHtml c now furl csrf_no_cache false with
    | .error e => ⟨.error e, 0, [(csrf_no_cache, false)], c⟩
    | .ok (_, c₁, _) =>
      let r := attemptResp 0
      if !r.ok && !csrf_no_cache && csrf_auto_retry then
        -- retry request after expiring cached token
        match get_csrf_token pageGet parseHtml c₁ now furl false true with
        | .error e => ⟨.error e, 1, [(csrf_no_cache, false), (false, true)], c₁⟩
        | .ok (_, c₂, _) =>
          let r₂ := attemptResp 1
          ⟨checkResult ("Post to " ++ url ++ " failed, Response " ++
              toString r₂.status_code) r₂,
            2, [(csrf_no_cache, false), (false, true)], c₂⟩
      else
        ⟨checkResult ("Post to " ++ url ++ " failed, Response " ++
            toString r.status_code) r,
          1, [(csrf_no_cache, false)], c₁⟩
  | none =>
    let r := attemptResp 0
    ⟨checkResult ("Post to " ++ url ++ " failed, Response " ++
        toString r.status_code) r,
      1, [], c⟩

/-- `PlanningCenterBackend.delete`.  Identical retry structure to `post`,
except the guard on the frontend URL is Python-truthy
(`if csrf_frontend_url:`), so an empty string also takes the no-CSRF
branch. -/
def backendDelete (pageGet : String → Response)
    (parseHtml : String → List HtmlElement) (attemptResp : Nat → Response)
    (c : CsrfCache) (now : Nat) (url : String)
    (csrf_frontend_url : Option String) (csrf_no_cache csrf_auto_retry : Bool) :
    MutationOutcome :=
  match csrf_frontend_url with
  | some furl =>
    if furl.isEmpty then
      let r := attemptResp 0
      ⟨checkResult ("Delete of " ++ url ++ " failed, Response " ++
          toString r.status_code) r,
        1, [], c⟩
    else
      match get_csrf_token pageGet parseHtml c now furl csrf_no_cache false with
      | .error e => ⟨.error e, 0, [(csrf_no_cache, false)], c⟩
      | .ok (_, c₁, _) =>
        let r := attemptResp 0
        if !r.ok && !csrf_no_cache && csrf_auto_retry then
          -- retry request after expiring cached token
          match get_csrf_token pageGet parseHtml c₁ now furl false true with
          | .error e => ⟨.error e, 1, [(csrf_no_cache, false), (false, true)], c₁⟩
          | .ok (_, c₂, _) =>
            let r₂ := attemptResp 1
            ⟨checkResult ("Delete of " ++ url ++ " failed, Response " ++
                toString r₂.status_code) r₂,
              2, [(csrf_no_cache, false), (false, true)], c₂⟩
        else
          ⟨checkResult ("Delete of " ++ url ++ " failed, Response " ++
              toString r.status_code) r,
            1, [(csrf_no_cache, false)], c₁⟩
  | none =>
    let r := attemptResp 0
    ⟨checkResult ("Delete of " ++ url ++ " failed, Response " ++
        toString r.status_code) r,
      1, [], c⟩

/-- If scraping succeeds, `get_csrf_token` succeeds for any cache state
and flags. -/
theorem get_csrf_token_isOk (pageGet : String → Response)
    (parseHtml : String → List HtmlElement) (c : CsrfCache) (now : Nat)
    (url tok : String) (nc fr : Bool)
    (hfetch : _get_csrf_token pageGet parseHtml url = .ok tok) :
    ∃ tok' c' b, get_csrf_token pageGet parseHtml c now url nc fr = .ok (tok', c', b) := by
  cases nc with
  | true =>
    exact ⟨tok, if fr then cachePop c url else c, true, by simp [get_csrf_token, hfetch]⟩
  | false =>
    cases hc : cacheLookup (if fr then cachePop c url else c) now url with
    | some t =>
      exact ⟨t, if fr then cachePop c url else c, false,
        by simp [get_csrf_token, _get_cached_csrf_token, hc]⟩
    | none =>
      exact ⟨tok, cacheInsert (if fr then cachePop c url else c) url tok now, true,
        by simp [get_csrf_token, _get_cached_csrf_token, hc, hfetch]⟩

/-- C4: the retry policy of `post` and `delete`, given that token
scraping succeeds and the frontend URL is nonempty:
(1) with caching and auto-retry enabled, if the first request fails then
exactly two requests are issued and the two `get_csrf_token` calls are
the initial one and a single `force_refresh=True` retry;
(2) never more than two requests are issued, whatever the flags;
(3) with `csrf_no_cache=True` or `csrf_auto_retry=False`, no retry:
exactly one request and a single token call without refresh. -/
theorem post_delete_retry_once (pageGet : String → Response)
    (parseHtml : String → List HtmlElement) (attemptResp : Nat → Response)
    (c : CsrfCache) (now : Nat) (url furl tok : String)
    (hfetch : _get_csrf_token pageGet parseHtml furl = .ok tok)
    (hne : furl.isEmpty = false) :
    ((attemptResp 0).ok = false →
      (backendPost pageGet parseHtml attemptResp c now url (some furl) false true).attempts = 2 ∧
      (backendPost pageGet parseHtml attemptResp c now url (some furl) false true).tokenCalls =
        [(false, false), (false, true)] ∧
      (backendDelete pageGet parseHtml attemptResp c now url (some furl) false true).attempts = 2 ∧
      (backendDelete pageGet parseHtml attemptResp c now url (some furl) false true).tokenCalls =
        [(false, false), (false, true)]) ∧
    (∀ (fu : Option String) (nc ar : Bool),
      (backendPost pageGet parseHtml attemptResp c now url fu nc ar).attempts ≤ 2 ∧
      (backendDelete pageGet parseHtml attemptResp c now url fu nc ar).attempts ≤ 2) ∧
    (∀ (nc ar : Bool), nc = true ∨ ar = false →
      (backendPost pageGet parseHtml attemptResp c now url (some furl) nc ar).attempts = 1 ∧
      (backendPost pageGet parseHtml attemptResp c now url (some furl) nc ar).tokenCalls =
        [(nc, false)] ∧
      (backendDelete pageGet parseHtml attemptResp c now url (some furl) nc ar).attempts = 1 ∧
      (backendDelete pageGet parseHtml attemptResp c now url (some furl) nc ar).tokenCalls =
        [(nc, false)]) := by
  obtain ⟨tok₁, c₁, b₁, hg₁⟩ :=
    get_csrf_token_isOk pageGet parseHtml c now furl tok false false hfetch
  obtain ⟨tok₂, c₂, b₂, hg₂⟩ :=
    get_csrf_token_isOk pageGet parseHtml c₁ now furl tok false true hfetch
  refine ⟨?_, ?_, ?_⟩
  · intro hfail
    simp [backendPost, backendDelete, hne, hg₁, hg₂, hfail]
  · intro fu nc ar
    constructor
    · cases fu with
      | none => simp [backendPost]
      | some f =>
        simp only [backendPost]
        cases hg : get_csrf_token pageGet parseHtml c now f nc false with
        | error e => simp
        | ok v =>
          obtain ⟨t, cc, b⟩ := v
          by_cases hcond : (!(attemptResp 0).ok && !nc && ar) = true
          · simp only [hcond, if_true]
            cases hg2 : get_csrf_token pageGet parseHtml cc now f false true with
            | error e => simp
            | ok v2 => simp
          · simp only [Bool.not_eq_true] at hcond
            simp [hcond]
    · cases fu with
      | none => simp [backendDelete]
      | some f =>
        by_cases hf : f.isEmpty
        · simp [backendDelete, hf]
        · simp only [backendDelete, hf, Bool.false_eq_true, if_false]
          cases hg : get_csrf_token pageGet parseHtml c now f nc false with
          | error e => simp
          | ok v =>
            obtain ⟨t, cc, b⟩ := v
            by_cases hcond : (!(attemptResp 0).ok && !nc && ar) = true
            · simp only [hcond, if_true]
              cases hg2 : get_csrf_token pageGet parseHtml cc now f false true with
              | error e => simp
              | ok v2 => simp
            · simp only [Bool.not_eq_true] at hcond
              simp [hcond]
  · intro nc ar hor
    obtain ⟨t₁, cc₁, bb₁, hgn⟩ :=
      get_csrf_token_isOk pageGet parseHtml c now furl tok nc false hfetch
    have hcond : (!(attemptResp 0).ok && !nc && ar) = false := by
      rcases hor with h | h <;> subst h <;> simp
    simp [backendPost, backendDelete, hne, hgn, hcond]

/-- A request oracle that always fails with HTTP 419. -/
def exampleFailResp : Nat → Response := fun _ => ⟨false, 419, ""⟩

/-- A request oracle whose first attempt fails and whose retry
succeeds. -/
def exampleRetryResp : Nat → Response := fun i =>
  if i = 0 then ⟨false, 419, "x"⟩ else ⟨true, 200, "ok"⟩

/-- Witness for C4: with a failing first request, `post` and `delete`
issue exactly two requests and perform one forced-refresh token call. -/
theorem post_delete_retry_once_witness :
    (backendPost examplePageGet exampleParseHtml exampleFailResp [] 0 "t" (some "u")
        false true).attempts = 2 ∧
    (backendPost examplePageGet exampleParseHtml exampleFailResp [] 0 "t" (some "u")
        false true).tokenCalls = [(false, false), (false, true)] ∧
    (backendDelete examplePageGet exampleParseHtml exampleFailResp [] 0 "t" (some "u")
        false true).attempts = 2 ∧
    (backendDelete examplePageGet exampleParseHtml exampleFailResp [] 0 "t" (some "u")
        false true).tokenCalls = [(false, false), (false, true)] :=
  (post_delete_retry_once examplePageGet exampleParseHtml exampleFailResp [] 0 "t" "u"
    "tok123" (by rfl) (by rfl)).1 (by rfl)

/-- C10: `get_json`, `post` and `delete` raise `RequestError` exactly
when the final response (after any automatic retry) is not ok, otherwise
return the body text (`get_json`) or the response object (`post`,
`delete`); the raised error carries the failing response. -/
theorem request_error_iff_not_ok (pageGet : String → Response)
    (parseHtml : String → List HtmlElement) (attemptResp : Nat → Response)
    (c : CsrfCache) (now : Nat) (url furl tok : String) (r : Response)
    (hfetch : _get_csrf_token pageGet parseHtml furl = .ok tok)
    (hne : furl.isEmpty = false) :
    ((r.ok = true → get_json r url = .ok r.text) ∧
     (r.ok = false →
       get_json r url = .error (.requestError ("Could not get JSON content at " ++ url) r))) ∧
    (((attemptResp 0).ok = true →
       (backendPost pageGet parseHtml attemptResp c now url (some furl) false true).result =
         .ok (attemptResp 0)) ∧
     ((attemptResp 0).ok = false → (attemptResp 1).ok = true →
       (backendPost pageGet parseHtml attemptResp c now url (some furl) false true).result =
         .ok (attemptResp 1)) ∧
     ((attemptResp 0).ok = false → (attemptResp 1).ok = false →
       (backendPost pageGet parseHtml attemptResp c now url (some furl) false true).result =
         .error (.requestError ("Post to " ++ url ++ " failed, Response " ++
           toString (attemptResp 1).status_code) (attemptResp 1)))) ∧
    (((attemptResp 0).ok = true →
       (backendDelete pageGet parseHtml attemptResp c now url (some furl) false true).result =
         .ok (attemptResp 0)) ∧
     ((attemptResp 0).ok = false → (attemptResp 1).ok = true →
       (backendDelete pageGet parseHtml attemptResp c now url (some furl) false true).result =
         .ok (attemptResp 1)) ∧
     ((attemptResp 0).ok = false → (attemptResp 1).ok = false →
       (backendDelete pageGet parseHtml attemptResp c now url (some furl) false true).result =
         .error (.requestError ("Delete of " ++ url ++ " failed, Response " ++
           toString (attemptResp 1).status_code) (attemptResp 1)))) := by
  obtain ⟨tok₁, c₁, b₁, hg₁⟩ :=
    get_csrf_token_isOk pageGet parseHtml c now furl tok false false hfetch
  obtain ⟨tok₂, c₂, b₂, hg₂⟩ :=
    get_csrf_token_isOk pageGet parseHtml c₁ now furl tok false true hfetch
  refine ⟨⟨?_, ?_⟩, ⟨?_, ?_, ?_⟩, ⟨?_, ?_, ?_⟩⟩
  · intro hok; simp [get_json, hok]
  · intro hok; simp [get_json, hok]
  · intro hok; simp [backendPost, hne, hg₁, hok, checkResult]
  · intro hfail hok; simp [backendPost, hne, hg₁, hg₂, hfail, hok, checkResult]
  · intro hfail hfail2; simp [backendPost, hne, hg₁, hg₂, hfail, hfail2, checkResult]
  · intro hok; simp [backendDelete, hne, hg₁, hok, checkResult]
  · intro hfail hok; simp [backendDelete, hne, hg₁, hg₂, hfail, hok, checkResult]
  · intro hfail hfail2; simp [backendDelete, hne, hg₁, hg₂, hfail, hfail2, checkResult]

/-- Witness for C10: a successful `get_json`, and `post`/`delete` whose
first attempt fails and whose retry succeeds, returning the retry
response. -/
theorem request_error_iff_not_ok_witness :
    get_json ⟨true, 200, "body"⟩ "t" = .ok "body" ∧
    (backendPost examplePageGet exampleParseHtml exampleRetryResp [] 0 "t" (some "u")
        false true).result = .ok (exampleRetryResp 1) ∧
    (backendDelete examplePageGet exampleParseHtml exampleRetryResp [] 0 "t" (some "u")
        false true).result = .ok (exampleRetryResp 1) :=
  ⟨(request_error_iff_not_ok examplePageGet exampleParseHtml exampleRetryResp [] 0 "t" "u"
      "tok123" ⟨true, 200, "body"⟩ (by rfl) (by rfl)).1.1 (by rfl),
   (request_error_iff_not_ok examplePageGet exampleParseHtml exampleRetryResp [] 0 "t" "u"
      "tok123" ⟨true, 200, "body"⟩ (by rfl) (by rfl)).2.1.2.1 (by rfl) (by rfl),
   (request_error_iff_not_ok examplePageGet exampleParseHtml exampleRetryResp [] 0 "t" "u"
      "tok123" ⟨true, 200, "body"⟩ (by rfl) (by rfl)).2.2.2.1 (by rfl) (by rfl)⟩

/-! ## groups.py : `GroupObject.refresh` / `GroupObject.attributes`

`GroupData` is the decoded `data` field of the group schema; only its
`attributes` field is relevant here, with attribute payload type `β`.
The object's mutable fields used by these methods are `_data`,
`_deleted` and `_settings_soup`. -/

structure GroupData (β : Type) where
  attributes : β
deriving Repr, DecidableEq

structure GroupObjectState (β : Type) where
  data : Option (GroupData β)
  deleted : Bool
  settingsSoup : Option (List HtmlElement)
deriving Repr, DecidableEq

/-- Outcome of `GroupObject.refresh`: the mutated object state, whether
`self._api.get` issued an API fetch, and the propagated exception if
any (uncaught exceptions leave the mutations made so far in place). -/
structure RefreshOutcome (β : Type) where
  state : GroupObjectState β
  fetched : Bool
  error : Option PcError
deriving Repr, DecidableEq

/-- `GroupObject.refresh`.  `apiGet` is the oracle for
`self._api.get(self.id_)` followed by `raw._data` (its error is the
exception raised by the underlying query); `settingsGet` is the oracle
for `self._backend.get_frontend_soup(self.settings_url)`. -/
def grp_refresh {β : Type} (apiGet : Except PcError (GroupData β))
    (settingsGet : Except PcError (List HtmlElement))
    (s : GroupObjectState β) : RefreshOutcome β :=
  if s.deleted then ⟨s, false, none⟩
  else
    match apiGet with
    | .error (.requestError m resp) =>
      if resp.status_code = 404 then ⟨{ s with deleted := true }, true, none⟩
      else ⟨s, true, some (.requestError m resp)⟩
    | .error e => ⟨s, true, some e⟩
    | .ok raw =>
      let s' : GroupObjectState β := { s with data := some raw }
      match settingsGet with
      | .error e => ⟨s', true, some e⟩
      | .ok soup => ⟨{ s' with settingsSoup := some soup }, true, none⟩

/-- Outcome of reading the `attributes` property: the returned value
(`None` or the group attributes), the object state afterwards, whether
an API fetch happened, and the propagated exception if any. -/
structure AttrOutcome (β : Type) where
  value : Option β
  state : GroupObjectState β
  fetched : Bool
  error : Option PcError
deriving Repr, DecidableEq

/-- The `GroupObject.attributes` property. -/
def grp_attributes {β : Type} (apiGet : Except PcError (GroupData β))
    (settingsGet : Except PcError (List HtmlElement))
    (s : GroupObjectState β) : AttrOutcome β :=
  if s.deleted then ⟨none, s, false, none⟩
  else
    match s.data with
    | none =>
      -- lazy load group data if needed
      let o := grp_refresh apiGet settingsGet s
      match o.error with
      | some e => ⟨none, o.state, o.fetched, some e⟩
      | none =>
        if o.state.deleted then ⟨none, o.state, o.fetched, none⟩
        else
          match o.state.data with
          | some d => ⟨some d.attributes, o.state, o.fetched, none⟩
          | none => ⟨none, o.state, o.fetched, none⟩
    | some d => ⟨some d.attributes, s, false, none⟩

/-- C7: lazy loading of group attributes:
(1) a deleted group returns `None` with no API fetch;
(2) a live group with unloaded data triggers an API fetch (whatever the
oracles return);
(3) when the fetches succeed, the refreshed attributes are returned. -/
theorem group_attributes_lazy {β : Type} (apiGet : Except PcError (GroupData β))
    (settingsGet : Except PcError (List HtmlElement)) (s : GroupObjectState β) :
    (s.deleted = true → grp_attributes apiGet settingsGet s = ⟨none, s, false, none⟩) ∧
    (s.deleted = false → s.data = none →
      (grp_attributes apiGet settingsGet s).fetched = true) ∧
    (∀ d soup, s.deleted = false → s.data = none →
      apiGet = .ok d → settingsGet = .ok soup →
      (grp_attributes apiGet settingsGet s).value = some d.attributes) := by
  refine ⟨?_, ?_, ?_⟩
  · intro hdel
    simp [grp_attributes, hdel]
  · intro hdel hdata
    cases apiGet with
    | error e =>
      cases e with
      | requestError m resp =>
        by_cases h404 : resp.status_code = 404 <;>
          simp [grp_attributes, grp_refresh, hdel, hdata, h404]
      | attributeError => simp [grp_attributes, grp_refresh, hdel, hdata]
      | keyError => simp [grp_attributes, grp_refresh, hdel, hdata]
    | ok d =>
      cases settingsGet with
      | error e => simp [grp_attributes, grp_refresh, hdel, hdata]
      | ok soup => simp [grp_attributes, grp_refresh, hdel, hdata]
  · intro d soup hdel hdata hapi hset
    subst hapi; subst hset
    simp [grp_attributes, grp_refresh, hdel, hdata]

/-- Witness for C7: a deleted state returns `None` unfetched; a fresh
state fetches and returns the loaded attributes. -/
theorem group_attributes_lazy_witness :
    grp_attributes (.ok (⟨5⟩ : GroupData Nat)) (.ok [])
        ⟨none, true, none⟩ = ⟨none, ⟨none, true, none⟩, false, none⟩ ∧
    (grp_attributes (.ok (⟨5⟩ : GroupData Nat)) (.ok []) ⟨none, false, none⟩).fetched = true ∧
    (grp_attributes (.ok (⟨5⟩ : GroupData Nat)) (.ok []) ⟨none, false, none⟩).value = some 5 :=
  ⟨(group_attributes_lazy (.ok ⟨5⟩) (.ok []) ⟨none, true, none⟩).1 (by rfl),
   (group_attributes_lazy (.ok ⟨5⟩) (.ok []) ⟨none, false, none⟩).2.1 (by rfl) (by rfl),
   (group_attributes_lazy (.ok ⟨5⟩) (.ok []) ⟨none, false, none⟩).2.2 ⟨5⟩ []
     (by rfl) (by rfl) (by rfl) (by rfl)⟩

/-! ## groups.py : `GroupIdentifier`

`GroupIdentifier` builds API/frontend URLs from a numeric id with
`urljoin` and parses them back with `urlparse` + `int`.  The URL
constants live in the repository's `_urls.py`, which is not among the
sources. -/

/-- Modelled from the spec: `_urls.py` is missing from the sources; the
v2 groups API base URL is reconstructed from the schema comments in
`_json_schemas/groups.py` (`https://api.planningcenteronline.com/groups/v2/groups`). -/
def GROUPS_API_BASE_URL : String :=
  "https://api.planningcenteronline.com/groups/v2/groups"

/-- Modelled from the spec: `_urls.py` is missing from the sources; the
groups frontend base URL is reconstructed from the frontend URLs written
out in `_groups/locations_v1.py`
(`https://groups.planningcenteronline.com/groups/<id>/settings`). -/
def GROUPS_BASE_URL : String :=
  "https://groups.planningcenteronline.com/groups"

/-- Modelled from the spec: `_urls.py` is missing from the sources; the
API host, from the same comments. -/
def API_NETLOC : String := "api.planningcenteronline.com"

/-- Modelled from the spec: `_urls.py` is missing from the sources; the
frontend host, from the same comments. -/
def GROUPS_NETLOC : String := "groups.planningcenteronline.com"

/-- Python's `f'{id}'` for a nonnegative `int`: its decimal digits,
most significant first. -/
def decimalDigits (n : Nat) : List Char :=
  if n = 0 then ['0'] else ((Nat.digits 10 n).map Nat.digitChar).reverse

def pyStrOfNat (n : Nat) : String := ⟨decimalDigits n⟩

structure GroupIdentifier where
  id_ : Nat
deriving Repr, DecidableEq

/-- `urljoin(urls.GROUPS_API_BASE_URL + '/', f'{self._id}')`: for an
absolute base URL and a purely numeric relative reference,
`urljoin(base + '/', ref)` is `base + '/' + ref`. -/
def GroupIdentifier.api_url (g : GroupIdentifier) : String :=
  GROUPS_API_BASE_URL ++ "/" ++ pyStrOfNat g.id_

/-- `urljoin(urls.GROUPS_BASE_URL + '/', f'{self._id}')`. -/
def GroupIdentifier.frontend_url (g : GroupIdentifier) : String :=
  GROUPS_BASE_URL ++ "/" ++ pyStrOfNat g.id_

/-- Helper for the `urlparse` model: drop everything up to and including
the first `://`.  Only the absolute `scheme://netloc/path` URLs this
module constructs are in scope. -/
def dropScheme : List Char → List Char
  | [] => []
  | ':' :: '/' :: '/' :: r => r
  | _ :: cs => dropScheme cs

/-- `urlparse(url).netloc` for an absolute `scheme://netloc/path` URL. -/
def urlNetloc (s : String) : List Char :=
  (dropScheme s.data).takeWhile (· ≠ '/')

/-- `urlparse(url).path` for an absolute `scheme://netloc/path` URL. -/
def urlPath (s : String) : List Char :=
  (dropScheme s.data).dropWhile (· ≠ '/')

/-- `path.split('/')[-1]`: the segment after the last `/`, or the whole
string when there is none. -/
def lastSegment (cs : List Char) : List Char :=
  (cs.reverse.takeWhile (· ≠ '/')).reverse

/-- `int(s)` on the nonnegative decimal strings produced by `f'{id}'`
(`none` models the `ValueError` raised on a non-numeric string). -/
def pyInt? (cs : List Char) : Option Nat :=
  if cs ≠ [] ∧ cs.all Char.isDigit then
    some (cs.foldl (fun a c => a * 10 + (c.toNat - '0'.toNat)) 0)
  else none

/-- `GroupIdentifier.from_url`: reject URLs whose netloc is neither the
API nor the frontend host (a `ValueError`, modelled as `none`), then
parse the last path segment as the id. -/
def GroupIdentifier.from_url (url : String) : Option GroupIdentifier :=
  if urlNetloc url = API_NETLOC.data ∨ urlNetloc url = GROUPS_NETLOC.data then
    (pyInt? (lastSegment (urlPath url))).map (fun i => ⟨i⟩)
  else none

def GroupIdentifier.from_id (id_ : Nat) : GroupIdentifier := ⟨id_⟩

/-! Arithmetic facts about the decimal representation. -/

theorem digitChar_isDigit {d : Nat} (h : d < 10) : (Nat.digitChar d).isDigit = true := by
  interval_cases d <;> decide

theorem digitChar_toNat {d : Nat} (h : d < 10) : (Nat.digitChar d).toNat - '0'.toNat = d := by
  interval_cases d <;> decide

theorem isDigit_ne_slash {c : Char} (h : c.isDigit = true) : c ≠ '/' := by
  intro heq
  rw [heq] at h
  exact absurd h (by decide)

theorem decimalDigits_all_digit (n : Nat) :
    ∀ c ∈ decimalDigits n, c.isDigit = true := by
  intro c hc
  by_cases h : n = 0
  · simp [decimalDigits, h] at hc
    subst hc
    decide
  · simp only [decimalDigits, h, if_false, List.mem_reverse, List.mem_map] at hc
    obtain ⟨d, hd, rfl⟩ := hc
    exact digitChar_isDigit (Nat.digits_lt_base (by norm_num) hd)

theorem decimalDigits_ne_nil (n : Nat) : decimalDigits n ≠ [] := by
  by_cases h : n = 0
  · simp [decimalDigits, h]
  · simp only [decimalDigits, h, if_false, ne_eq, List.reverse_eq_nil_iff, List.map_eq_nil_iff]
    exact Nat.digits_ne_nil_iff_ne_zero.mpr h

theorem foldl_digits_eq_ofDigits :
    ∀ (L : List Nat), (∀ d ∈ L, d < 10) →
      ((L.map Nat.digitChar).reverse).foldl (fun a c => a * 10 + (c.toNat - '0'.toNat)) 0 =
        Nat.ofDigits 10 L
  | [], _ => by simp [Nat.ofDigits]
  | d :: L, h => by
    have hd : d < 10 := h d (by simp)
    have ih := foldl_digits_eq_ofDigits L (fun x hx => h x (by simp [hx]))
    simp only [List.map_cons, List.reverse_cons, List.foldl_append, List.foldl_cons,
      List.foldl_nil]
    rw [ih, digitChar_toNat hd, Nat.ofDigits_cons]
    ring

theorem pyInt_decimalDigits (n : Nat) : pyInt? (decimalDigits n) = some n := by
  have h1 : decimalDigits n ≠ [] := decimalDigits_ne_nil n
  have h2 : (decimalDigits n).all Char.isDigit = true := by
    rw [List.all_eq_true]
    exact decimalDigits_all_digit n
  rw [pyInt?, if_pos ⟨h1, h2⟩]
  congr 1
  by_cases h : n = 0
  · subst h
    decide
  · simp only [decimalDigits, h, if_false]
    rw [foldl_digits_eq_ofDigits _ (fun d hd => Nat.digits_lt_base (by norm_num) hd)]
    exact Nat.ofDigits_digits 10 n

/-! Evaluation of the URL parser on the two generated URL shapes. -/

theorem takeWhile_append_all (p : Char → Bool) :
    ∀ (xs ys : List Char), (∀ x ∈ xs, p x = true) →
      (xs ++ ys).takeWhile p = xs ++ ys.takeWhile p
  | [], _, _ => by simp
  | x :: xs, ys, h => by
    have hx : p x = true := h x (by simp)
    simp [List.takeWhile_cons, hx,
      takeWhile_append_all p xs ys (fun a ha => h a (by simp [ha]))]

theorem lastSegment_append_of_no_slash (pre ds : List Char)
    (hpre : pre.reverse.takeWhile (· ≠ '/') = [])
    (hds : ∀ c ∈ ds, c ≠ '/') :
    lastSegment (pre ++ ds) = ds := by
  unfold lastSegment
  rw [List.reverse_append,
    takeWhile_append_all _ ds.reverse pre.reverse
      (fun x hx => decide_eq_true (hds x (List.mem_reverse.mp hx))),
    hpre, List.append_nil, List.reverse_reverse]

theorem dropScheme_api (r : List Char) :
    dropScheme ("https://api.planningcenteronline.com/groups/v2/groups/".data ++ r) =
      "api.planningcenteronline.com/groups/v2/groups/".data ++ r := rfl

theorem takeWhile_api (r : List Char) :
    ("api.planningcenteronline.com/groups/v2/groups/".data ++ r).takeWhile (· ≠ '/') =
      "api.planningcenteronline.com".data := rfl

theorem dropWhile_api (r : List Char) :
    ("api.planningcenteronline.com/groups/v2/groups/".data ++ r).dropWhile (· ≠ '/') =
      "/groups/v2/groups/".data ++ r := rfl

theorem dropScheme_frontend (r : List Char) :
    dropScheme ("https://groups.planningcenteronline.com/groups/".data ++ r) =
      "groups.planningcenteronline.com/groups/".data ++ r := rfl

theorem takeWhile_frontend (r : List Char) :
    ("groups.planningcenteronline.com/groups/".data ++ r).takeWhile (· ≠ '/') =
      "groups.planningcenteronline.com".data := rfl

theorem dropWhile_frontend (r : List Char) :
    ("groups.planningcenteronline.com/groups/".data ++ r).dropWhile (· ≠ '/') =
      "/groups/".data ++ r := rfl

theorem api_url_data (n : Nat) :
    (GroupIdentifier.from_id n).api_url.data =
      "https://api.planningcenteronline.com/groups/v2/groups/".data ++ decimalDigits n := rfl

theorem frontend_url_data (n : Nat) :
    (GroupIdentifier.from_id n).frontend_url.data =
      "https://groups.planningcenteronline.com/groups/".data ++ decimalDigits n := rfl

/-- C9: `GroupIdentifier` construction and URL parsing round-trip, via
both the API URL and the frontend URL. -/
theorem group_identifier_round_trip (n : Nat) :
    (GroupIdentifier.from_url (GroupIdentifier.from_id n).api_url).map
        GroupIdentifier.id_ = some n ∧
    (GroupIdentifier.from_url (GroupIdentifier.from_id n).frontend_url).map
        GroupIdentifier.id_ = some n := by
  have hds : ∀ c ∈ decimalDigits n, c ≠ '/' :=
    fun c hc => isDigit_ne_slash (decimalDigits_all_digit n c hc)
  constructor
  · have hnet : urlNetloc (GroupIdentifier.from_id n).api_url = API_NETLOC.data := by
      unfold urlNetloc
      rw [api_url_data, dropScheme_api, takeWhile_api]
      rfl
    have hlast : lastSegment (urlPath (GroupIdentifier.from_id n).api_url) =
        decimalDigits n := by
      unfold urlPath
      rw [api_url_data, dropScheme_api, dropWhile_api]
      exact lastSegment_append_of_no_slash _ _ (by decide) hds
    unfold GroupIdentifier.from_url
    rw [if_pos (Or.inl hnet), hlast, pyInt_decimalDigits]
    rfl
  · have hnet : urlNetloc (GroupIdentifier.from_id n).frontend_url = GROUPS_NETLOC.data := by
      unfold urlNetloc
      rw [frontend_url_data, dropScheme_frontend, takeWhile_frontend]
      rfl
    have hlast : lastSegment (urlPath (GroupIdentifier.from_id n).frontend_url) =
        decimalDigits n := by
      unfold urlPath
      rw [frontend_url_data, dropScheme_frontend, dropWhile_frontend]
      exact lastSegment_append_of_no_slash _ _ (by decide) hds
    unfold GroupIdentifier.from_url
    rw [if_pos (Or.inr hnet), hlast, pyInt_decimalDigits]
    rfl

end PlanningCenter
